import Mathlib

/-!
Verification of the git-mcp command dispatcher.

Each handler of the dispatcher builds a command string for the external
tool by sequential string concatenation and passes it, prefixed with the
tool name, to a shell.  The definitions below embed those handlers:
every argument bundle is a structure of optional fields (an absent field
of the dynamic argument bag is `none`), and the JavaScript truthiness
tests and interpolation conventions of the source are modelled
explicitly (`truthyB`, `truthyS`, `truthyN`, `jsStr`, `jsOr`).
-/

namespace GitMCP

/-- JavaScript truthiness of an optional boolean field: only an
explicitly supplied `true` is truthy. -/
def truthyB : Option Bool → Bool
  | some b => b
  | none => false

/-- JavaScript truthiness of an optional string field: a supplied
non-empty string is truthy, an absent field or an empty string is not. -/
def truthyS : Option String → Bool
  | some s => if s = "" then false else true
  | none => false

/-- JavaScript truthiness of an optional numeric field: a supplied
non-zero number is truthy, an absent field or zero is not. -/
def truthyN : Option Nat → Bool
  | some n => if n = 0 then false else true
  | none => false

/-- JavaScript template interpolation of a possibly absent string:
interpolating `undefined` produces the literal text `undefined`. -/
def jsStr : Option String → String
  | some s => s
  | none => "undefined"

/-- The JavaScript expression `x || d` for an optional string `x`:
the default is used when the field is absent or empty. -/
def jsOr (o : Option String) (d : String) : String :=
  match o with
  | some s => if s = "" then d else s
  | none => d

/-- The JavaScript expression `x || d` for two strings: the source uses
it to replace empty-but-successful output with a default message. -/
def jsOrStr (s d : String) : String :=
  if s = "" then d else s

/-- The manual quoting used throughout the source: the value is wrapped
in double quotes and interpolated verbatim. -/
def quoteArg (s : String) : String :=
  "\"" ++ s ++ "\""

structure InitArgs where
  path : Option String := none
  initialBranch : Option String := none
  bare : Option Bool := none

structure CloneArgs where
  url : Option String := none
  path : Option String := none
  branch : Option String := none
  depth : Option Nat := none
  recursive : Option Bool := none

structure StatusArgs where
  path : Option String := none
  short : Option Bool := none
  branch : Option Bool := none
  porcelain : Option Bool := none

structure AddArgs where
  files : Option (List String) := none
  path : Option String := none
  all : Option Bool := none
  update : Option Bool := none

structure CommitArgs where
  message : Option String := none
  path : Option String := none
  all : Option Bool := none
  amend : Option Bool := none
  author : Option String := none

structure PushArgs where
  path : Option String := none
  remote : Option String := none
  branch : Option String := none
  force : Option Bool := none
  setUpstream : Option Bool := none
  tags : Option Bool := none

structure PullArgs where
  path : Option String := none
  remote : Option String := none
  branch : Option String := none
  rebase : Option Bool := none
  ff : Option Bool := none

structure BranchArgs where
  action : Option String := none
  name : Option String := none
  newName : Option String := none
  path : Option String := none
  all : Option Bool := none
  remote : Option Bool := none

structure CheckoutArgs where
  branch : Option String := none
  path : Option String := none
  create : Option Bool := none
  force : Option Bool := none

structure MergeArgs where
  branch : Option String := none
  path : Option String := none
  message : Option String := none
  noFf : Option Bool := none
  squash : Option Bool := none

/-- Arguments of the log operation; the source field `until` is a Lean
keyword and is embedded here as `untilArg`. -/
structure LogArgs where
  path : Option String := none
  limit : Option Nat := none
  oneline : Option Bool := none
  graph : Option Bool := none
  author : Option String := none
  since : Option String := none
  untilArg : Option String := none

structure DiffArgs where
  path : Option String := none
  cached : Option Bool := none
  commit : Option String := none
  stat : Option Bool := none
  nameOnly : Option Bool := none

structure StashArgs where
  action : Option String := none
  message : Option String := none
  path : Option String := none
  index : Option Nat := none
  includeUntracked : Option Bool := none

structure RemoteArgs where
  action : Option String := none
  name : Option String := none
  url : Option String := none
  path : Option String := none
  verbose : Option Bool := none

structure TagArgs where
  action : Option String := none
  name : Option String := none
  message : Option String := none
  path : Option String := none
  annotated : Option Bool := none
  force : Option Bool := none

structure ResetArgs where
  path : Option String := none
  mode : Option String := none
  commit : Option String := none

/-- Command built by `handleInit`. -/
def initCommand (a : InitArgs) : String :=
  "init"
  ++ (if truthyS a.initialBranch then " --initial-branch=" ++ quoteArg (jsStr a.initialBranch) else "")
  ++ (if truthyB a.bare then " --bare" else "")
  ++ (if truthyS a.path then " " ++ quoteArg (jsStr a.path) else "")

/-- Command built by `handleClone`. -/
def cloneCommand (a : CloneArgs) : String :=
  "clone " ++ quoteArg (jsStr a.url)
  ++ (if truthyS a.path then " " ++ quoteArg (jsStr a.path) else "")
  ++ (if truthyS a.branch then " --branch " ++ quoteArg (jsStr a.branch) else "")
  ++ (if truthyN a.depth then " --depth " ++ toString (a.depth.getD 0) else "")
  ++ (if truthyB a.recursive then " --recursive" else "")

/-- Command built by `handleStatus`. -/
def statusCommand (a : StatusArgs) : String :=
  "status"
  ++ (if truthyB a.short then " --short" else "")
  ++ (if truthyB a.branch then " --branch" else "")
  ++ (if truthyB a.porcelain then " --porcelain" else "")

/-- Command built by `handleAdd`. -/
def addCommand (a : AddArgs) : String :=
  "add"
  ++ (if truthyB a.all then " --all"
      else if truthyB a.update then " --update"
      else match a.files with
        | some fs => if fs.length > 0 then " " ++ String.intercalate " " (fs.map quoteArg) else " ."
        | none => " .")

/-- Command built by `handleCommit`. -/
def commitCommand (a : CommitArgs) : String :=
  "commit" ++ " -m " ++ quoteArg (jsStr a.message)
  ++ (if truthyB a.all then " --all" else "")
  ++ (if truthyB a.amend then " --amend" else "")
  ++ (if truthyS a.author then " --author=" ++ quoteArg (jsStr a.author) else "")

/-- Command built by `handlePush`. -/
def pushCommand (a : PushArgs) : String :=
  "push"
  ++ (if truthyB a.force then " --force" else "")
  ++ (if truthyB a.setUpstream then " --set-upstream" else "")
  ++ (if truthyB a.tags then " --tags" else "")
  ++ (" " ++ jsOr a.remote ("origin"))
  ++ (if truthyS a.branch then " " ++ jsStr a.branch else "")

/-- Command built by `handlePull`. -/
def pullCommand (a : PullArgs) : String :=
  "pull"
  ++ (if truthyB a.rebase then " --rebase" else "")
  ++ (if a.ff = some false then " --no-ff" else "")
  ++ (" " ++ jsOr a.remote ("origin"))
  ++ (if truthyS a.branch then " " ++ jsStr a.branch else "")

/-- Command built by `handleBranch`. -/
def branchCommand (a : BranchArgs) : String :=
  "branch"
  ++ match a.action with
     | some ("create") => " " ++ quoteArg (jsStr a.name)
     | some ("delete") => " -d " ++ quoteArg (jsStr a.name)
     | some ("rename") => " -m " ++ quoteArg (jsStr a.name) ++ " " ++ quoteArg (jsStr a.newName)
     | _ => (if truthyB a.all then " --all" else "") ++ (if truthyB a.remote then " --remote" else "")

/-- Command built by `handleCheckout`. -/
def checkoutCommand (a : CheckoutArgs) : String :=
  "checkout"
  ++ (if truthyB a.create then " -b" else "")
  ++ (if truthyB a.force then " --force" else "")
  ++ (" " ++ quoteArg (jsStr a.branch))

/-- Command built by `handleMerge`. -/
def mergeCommand (a : MergeArgs) : String :=
  "merge " ++ quoteArg (jsStr a.branch)
  ++ (if truthyS a.message then " -m " ++ quoteArg (jsStr a.message) else "")
  ++ (if truthyB a.noFf then " --no-ff" else "")
  ++ (if truthyB a.squash then " --squash" else "")

/-- Command built by `handleLog`. -/
def logCommand (a : LogArgs) : String :=
  "log"
  ++ (if truthyN a.limit then " -" ++ toString (a.limit.getD 0) else "")
  ++ (if truthyB a.oneline then " --oneline" else "")
  ++ (if truthyB a.graph then " --graph" else "")
  ++ (if truthyS a.author then " --author=" ++ quoteArg (jsStr a.author) else "")
  ++ (if truthyS a.since then " --since=" ++ quoteArg (jsStr a.since) else "")
  ++ (if truthyS a.untilArg then " --until=" ++ quoteArg (jsStr a.untilArg) else "")

/-- Command built by `handleDiff`. -/
def diffCommand (a : DiffArgs) : String :=
  "diff"
  ++ (if truthyB a.cached then " --cached" else "")
  ++ (if truthyB a.stat then " --stat" else "")
  ++ (if truthyB a.nameOnly then " --name-only" else "")
  ++ (if truthyS a.commit then " " ++ jsStr a.commit else "")

/-- The `stash@\x7bindex\x7d` positional appended by the pop, apply and
drop actions of `handleStash` whenever the index field is present. -/
def stashIndexPart (idx : Option Nat) : String :=
  match idx with
  | some i => " stash@\x7b" ++ toString i ++ "\x7d"
  | none => ""

/-- Command built by `handleStash`. -/
def stashCommand (a : StashArgs) : String :=
  "stash"
  ++ match a.action with
     | some ("save") =>
       " push"
       ++ (if truthyS a.message then " -m " ++ quoteArg (jsStr a.message) else "")
       ++ (if truthyB a.includeUntracked then " --include-untracked" else "")
     | some ("pop") => " pop" ++ stashIndexPart a.index
     | some ("apply") => " apply" ++ stashIndexPart a.index
     | some ("drop") => " drop" ++ stashIndexPart a.index
     | some ("clear") => " clear"
     | _ => " list"

/-- Command built by `handleRemote`. -/
def remoteCommand (a : RemoteArgs) : String :=
  "remote"
  ++ match a.action with
     | some ("add") => " add " ++ quoteArg (jsStr a.name) ++ " " ++ quoteArg (jsStr a.url)
     | some ("remove") => " remove " ++ quoteArg (jsStr a.name)
     | some ("set-url") => " set-url " ++ quoteArg (jsStr a.name) ++ " " ++ quoteArg (jsStr a.url)
     | some ("show") => " show " ++ jsOr a.name ("")
     | _ => (if truthyB a.verbose then " -v" else "")

/-- Command built by `handleTag`. -/
def tagCommand (a : TagArgs) : String :=
  "tag"
  ++ match a.action with
     | some ("create") =>
       (if truthyB a.annotated && truthyS a.message
        then " -a " ++ quoteArg (jsStr a.name) ++ " -m " ++ quoteArg (jsStr a.message)
        else " " ++ quoteArg (jsStr a.name))
       ++ (if truthyB a.force then " -f" else "")
     | some ("delete") => " -d " ++ quoteArg (jsStr a.name)
     | _ => ""

/-- Command built by `handleReset`. -/
def resetCommand (a : ResetArgs) : String :=
  "reset --" ++ jsStr a.mode ++ " " ++ jsOr a.commit ("HEAD")

/-- The full command line handed to the shell by `execGit`. -/
def gitCommandLine (c : String) : String :=
  "git " ++ c

/-- One tool call as dispatched by the request handler. -/
inductive Request where
  | init (a : InitArgs)
  | clone (a : CloneArgs)
  | status (a : StatusArgs)
  | add (a : AddArgs)
  | commit (a : CommitArgs)
  | push (a : PushArgs)
  | pull (a : PullArgs)
  | branch (a : BranchArgs)
  | checkout (a : CheckoutArgs)
  | merge (a : MergeArgs)
  | log (a : LogArgs)
  | diff (a : DiffArgs)
  | stash (a : StashArgs)
  | remote (a : RemoteArgs)
  | tag (a : TagArgs)
  | reset (a : ResetArgs)

/-- Outcome of the external process: exit zero with the captured output
streams, or a rejection (non-zero exit or spawn failure) carrying the
error's message text. -/
inductive ExecOutcome where
  | ok (stdout stderr : String)
  | err (message : String)

/-- The success-path text payload of each handler: the captured standard
output, with the handler's fallback default (where the source has one)
substituted when the output is empty. -/
def finishOutput : Request → String → String
  | .init _, out => jsOrStr out ("Git repository initialized successfully")
  | .clone _, out => jsOrStr out ("Repository cloned successfully")
  | .status _, out => out
  | .add _, out => jsOrStr out ("Files added to staging area")
  | .commit _, out => out
  | .push _, out => jsOrStr out ("Push completed successfully")
  | .pull _, out => out
  | .branch _, out => jsOrStr out ("Branch operation completed")
  | .checkout a, out => jsOrStr out ("Switched to branch \x27" ++ jsStr a.branch ++ "\x27")
  | .merge _, out => out
  | .log _, out => out
  | .diff _, out => jsOrStr out ("No differences found")
  | .stash _, out => jsOrStr out ("Stash operation completed")
  | .remote _, out => jsOrStr out ("Remote operation completed")
  | .tag _, out => jsOrStr out ("Tag operation completed")
  | .reset _, out => jsOrStr out ("Reset completed")

/-- The caller-facing result of one tool call: on exit zero the text
payload, otherwise the single error value produced by the dispatcher's
catch clause, which prefixes the raised message with `Git error: `. -/
def callTool (r : Request) (o : ExecOutcome) : Except String String :=
  match o with
  | .ok out _ => Except.ok (finishOutput r out)
  | .err m => Except.error ("Git error: " ++ m)

/-- State of the simplified POSIX-shell reader used to model how the
shell that `exec` delegates to tokenizes the composed command line:
double quotes toggle quoting, an unquoted space separates tokens, an
unquoted semicolon separates commands, and all other characters are
literal. -/
structure ShState where
  cmds : List (List String)
  toks : List String
  cur : String
  hasCur : Bool
  inQ : Bool

/-- One step of the simplified shell reader. -/
def shStep (st : ShState) (c : Char) : ShState :=
  if st.inQ then
    if c = '"' then { st with inQ := false }
    else { st with cur := st.cur.push c }
  else if c = '"' then { st with inQ := true, hasCur := true }
  else if c = ' ' then
    if st.hasCur then { st with toks := st.toks ++ [st.cur], cur := "", hasCur := false }
    else st
  else if c = ';' then
    { st with
      cmds := st.cmds ++ (if st.hasCur then [st.toks ++ [st.cur]]
                          else if st.toks = [] then [] else [st.toks]),
      toks := [], cur := "", hasCur := false }
  else { st with cur := st.cur.push c, hasCur := true }

/-- The commands, each a token list, that the shell extracts from a
command line under the simplified reader. -/
def shellCommands (s : String) : List (List String) :=
  let st := s.data.foldl shStep ⟨[], [], "", false, false⟩
  let toks := if st.hasCur then st.toks ++ [st.cur] else st.toks
  st.cmds ++ (if toks = [] then [] else [toks])

/-- One step of the whitespace tokenizer: completed words and the word
being accumulated. -/
def wstep (acc : List (List Char) × List Char) (c : Char) : List (List Char) × List Char :=
  if c = ' ' then (acc.1 ++ [acc.2], []) else (acc.1, acc.2 ++ [c])

/-- The words of a character list: maximal runs of non-space
characters. -/
def wordsOf (l : List Char) : List (List Char) :=
  ((l.foldl wstep ([], [])).1 ++ [(l.foldl wstep ([], [])).2]).filter (fun w => !w.isEmpty)

/-- The whitespace tokens of a composed command string. -/
def tokens (s : String) : List String :=
  (wordsOf s.data).map String.mk

/-- A plain token value: non-empty and without spaces, so that it
occupies exactly one position in the token sequence. -/
def plainTok (s : String) : Prop :=
  s ≠ "" ∧ ∀ c ∈ s.data, c ≠ ' '

/-- A boolean field purely inserts a flag token: there is a fixed prefix
and suffix such that setting the field `true` yields prefix, flag token,
suffix, while `false` or absent yields prefix and suffix unchanged. -/
def insertsFlag (f : Option Bool → String) (tok : String) : Prop :=
  ∃ pre suf : String,
    f (some true) = pre ++ tok ++ suf
    ∧ f (some false) = pre ++ suf
    ∧ f none = pre ++ suf

end GitMCP

namespace GitMCP

lemma str_ext {a b : String} (h : a.data = b.data) : a = b := by
  cases a with
  | mk d1 =>
    cases b with
    | mk d2 =>
      cases h
      rfl

lemma strData_append (a b : String) : (a ++ b).data = a.data ++ b.data := by
  cases a with
  | mk d1 =>
    cases b with
    | mk d2 => rfl

lemma mk_data (s : String) : String.mk s.data = s := by
  cases s with
  | mk d => rfl

lemma strData_empty : ("" : String).data = [] := rfl

lemma strAppend_assoc (a b c : String) : a ++ b ++ c = a ++ (b ++ c) := by
  apply str_ext
  simp [strData_append, List.append_assoc]

lemma strAppend_empty (s : String) : s ++ "" = s := by
  apply str_ext
  simp [strData_append, strData_empty]

lemma strEmpty_append (s : String) : "" ++ s = s := by
  apply str_ext
  simp [strData_append, strData_empty]

lemma str_length_append (a b : String) : (a ++ b).length = a.length + b.length := by
  cases a with
  | mk d1 =>
    cases b with
    | mk d2 =>
      show (d1 ++ d2).length = d1.length + d2.length
      exact List.length_append d1 d2

lemma foldl_wstep_shift (b : List Char) :
    ∀ (ws : List (List Char)) (cur : List Char),
      List.foldl wstep (ws, cur) b
        = (ws ++ (List.foldl wstep ([], cur) b).1, (List.foldl wstep ([], cur) b).2) := by
  induction b with
  | nil =>
    intro ws cur
    simp
  | cons c b ih =>
    intro ws cur
    by_cases hc : c = ' '
    · subst hc
      have e1 : List.foldl wstep (ws, cur) (' ' :: b) = List.foldl wstep (ws ++ [cur], []) b := rfl
      have e2 : List.foldl wstep (([] : List (List Char)), cur) (' ' :: b)
          = List.foldl wstep ([cur], []) b := rfl
      rw [e1, e2, ih (ws ++ [cur]) [], ih [cur] []]
      simp
    · have e1 : List.foldl wstep (ws, cur) (c :: b) = List.foldl wstep (ws, cur ++ [c]) b := by
        simp [List.foldl_cons, wstep, hc]
      have e2 : List.foldl wstep (([] : List (List Char)), cur) (c :: b)
          = List.foldl wstep ([], cur ++ [c]) b := by
        simp [List.foldl_cons, wstep, hc]
      rw [e1, e2]
      exact ih ws (cur ++ [c])

lemma foldl_wstep_nospace (b : List Char) :
    ∀ (h : ∀ c ∈ b, c ≠ ' ') (ws : List (List Char)) (cur : List Char),
      List.foldl wstep (ws, cur) b = (ws, cur ++ b) := by
  induction b with
  | nil =>
    intro _ ws cur
    simp
  | cons c b ih =>
    intro h ws cur
    have hc : c ≠ ' ' := h c (List.mem_cons_self c b)
    have e1 : List.foldl wstep (ws, cur) (c :: b) = List.foldl wstep (ws, cur ++ [c]) b := by
      simp [List.foldl_cons, wstep, hc]
    rw [e1, ih (fun x hx => h x (List.mem_cons_of_mem c hx)) ws (cur ++ [c])]
    simp

lemma wordsOf_append_space (a b : List Char) :
    wordsOf (a ++ ' ' :: b) = wordsOf a ++ wordsOf b := by
  simp only [wordsOf]
  rw [List.foldl_append]
  rw [show List.foldl wstep (List.foldl wstep ([], []) a) (' ' :: b)
        = List.foldl wstep ((List.foldl wstep ([], []) a).1 ++ [(List.foldl wstep ([], []) a).2], []) b
      from rfl]
  rw [foldl_wstep_shift b]
  simp only [List.append_assoc, List.filter_append]

lemma wordsOf_nospace (l : List Char) (h : ∀ c ∈ l, c ≠ ' ') (hne : l ≠ []) :
    wordsOf l = [l] := by
  simp only [wordsOf]
  rw [foldl_wstep_nospace l h [] []]
  cases l with
  | nil => exact absurd rfl hne
  | cons c cs => simp [List.filter]

lemma tokens_sep (s t : String) : tokens (s ++ (" " ++ t)) = tokens s ++ tokens t := by
  simp only [tokens]
  have e : (s ++ (" " ++ t)).data = s.data ++ ' ' :: t.data := by
    rw [strData_append, strData_append]
    rfl
  rw [e, wordsOf_append_space, List.map_append]

lemma tokens_plain (s : String) (h : plainTok s) : tokens s = [s] := by
  have hd : s.data ≠ [] := by
    intro hd
    apply h.1
    rw [← mk_data s, hd]
  simp only [tokens]
  rw [wordsOf_nospace s.data h.2 hd]
  simp [mk_data]

lemma truthyB_eq (o : Option Bool) : truthyB o = decide (o = some true) := by
  cases o with
  | none => rfl
  | some b => cases b <;> rfl

lemma tok_pull : tokens ("pull") = ["pull"] := rfl

lemma tok_rebase : tokens ("--rebase") = ["--rebase"] := rfl

lemma tok_noff : tokens ("--no-ff") = ["--no-ff"] := rfl

lemma tok_origin : tokens ("origin") = ["origin"] := rfl

lemma sp_rebase : (" --rebase" : String) = " " ++ "--rebase" := rfl

lemma sp_noff : (" --no-ff" : String) = " " ++ "--no-ff" := rfl

/-- Claim C1: the claim states that every user-supplied string value
survives shell tokenization of the composed command line as exactly one
literal token and cannot introduce further commands.  The code refutes
this: the handlers interpolate values into a single shell string with
naive double-quoting and hand it to a shell, so a commit message
containing a quote and semicolons is parsed as three separate commands,
`git commit -m a`, `rm -rf /` and `echo` with an empty argument. -/
theorem c1_commit_message_shell_injection :
    shellCommands (gitCommandLine (commitCommand { message := some ("a\"; rm -rf /; echo \"") }))
      = [["git", "commit", "-m", "a"], ["rm", "-rf", "/"], ["echo", ""]] := by
  decide

/-- Claim C2: the claim states that a request omitting a required field
(clone's url, commit's message, checkout's branch, merge's branch) is
rejected before any process is spawned.  The code refutes this: no
handler validates anything; the absent field is interpolated as the
JavaScript text `undefined` and the resulting command is executed. -/
theorem c2_missing_required_fields_still_composed :
    commitCommand {} = "commit -m \"undefined\""
    ∧ cloneCommand {} = "clone \"undefined\""
    ∧ checkoutCommand {} = "checkout \"undefined\""
    ∧ mergeCommand {} = "merge \"undefined\"" := by
  exact ⟨rfl, rfl, rfl, rfl⟩

/-- Claim C5: the claim states that `push({})` uses remote origin, that
`reset({})` composes `reset --mixed HEAD`, and that `log({})` carries
the limit flag for 10 commits.  The code satisfies the push part but
refutes the other two: the schema defaults for reset's mode and log's
limit are never applied by the handlers, so `reset({})` composes
`reset --undefined HEAD` and `log({})` composes plain `log`. -/
theorem c5_empty_bundle_defaults :
    pushCommand {} = "push origin"
    ∧ resetCommand {} = "reset --undefined HEAD"
    ∧ logCommand {} = "log" := by
  exact ⟨rfl, rfl, rfl⟩

/-- Claim C6: the claim states that clone's recursive field defaults to
true, so that omitting it yields a command containing `--recursive`.
The code refutes the default: the handler tests JavaScript truthiness of
the field, so an omitted field produces no `--recursive` token; an
explicit true does produce it, an explicit false does not, and the
remaining arguments appear in the order url, path, `--branch`,
`--depth`, `--recursive`. -/
theorem c6_clone_recursive_default_not_applied :
    cloneCommand { url := some ("u") } = "clone \"u\""
    ∧ cloneCommand { url := some ("u"), recursive := some true } = "clone \"u\" --recursive"
    ∧ cloneCommand { url := some ("u"), recursive := some false } = "clone \"u\""
    ∧ cloneCommand { url := some ("u"), path := some ("p"), branch := some ("b"), depth := some 5, recursive := some true }
      = "clone \"u\" \"p\" --branch \"b\" --depth 5 --recursive" := by
  exact ⟨rfl, rfl, rfl, rfl⟩

/-- Claim C3: whenever the external process exits non-zero or cannot be
spawned, the call returns a failure carrying non-empty diagnostic text
derived from the raised message (the dispatcher's catch prefixes it with
`Git error: `), and never a success result. -/
theorem c3_nonzero_exit_always_failure (r : Request) (m : String) :
    callTool r (ExecOutcome.err m) = Except.error ("Git error: " ++ m)
    ∧ ("Git error: " ++ m) ≠ ""
    ∧ ∀ t, callTool r (ExecOutcome.err m) ≠ Except.ok t := by
  refine ⟨rfl, ?_, ?_⟩
  · intro h
    have h2 := congrArg String.length h
    rw [str_length_append] at h2
    have e1 : ("Git error: " : String).length = 11 := rfl
    have e2 : ("" : String).length = 0 := rfl
    rw [e1, e2] at h2
    omega
  · intro t h
    simp [callTool] at h

/-- Witness for C3 at a concrete operation and error message. -/
theorem c3_nonzero_exit_always_failure_witness :
    callTool (Request.status {}) (ExecOutcome.err ("boom")) = Except.error ("Git error: boom")
    ∧ ("Git error: " ++ "boom") ≠ "" := by
  have h := c3_nonzero_exit_always_failure (Request.status {}) ("boom")
  exact ⟨h.1, h.2.1⟩

/-- Counterexample to claim C4 as stated: the claim says every
operation substitutes a fixed non-empty default message when a
successful call produces empty output, but the commit handler returns
the captured output verbatim, so the payload is the empty string. -/
theorem c4_commit_empty_output_counterexample :
    callTool (Request.commit { message := some ("x") }) (ExecOutcome.ok ("") ("")) = Except.ok ("") := rfl

/-- Claim C4, amended: non-empty standard output is returned verbatim by
every operation; on empty output the init, clone, add, push, branch,
checkout, diff, stash, remote, tag and reset handlers substitute their
fallback message (checkout's embeds the requested branch), while the
status, commit, pull, merge and log handlers return the empty output
verbatim. -/
theorem c4_empty_output_defaults_amended :
    (∀ (r : Request) (out e : String), out ≠ "" → callTool r (ExecOutcome.ok out e) = Except.ok out)
    ∧ (∀ a, callTool (Request.init a) (ExecOutcome.ok ("") ("")) = Except.ok ("Git repository initialized successfully"))
    ∧ (∀ a, callTool (Request.clone a) (ExecOutcome.ok ("") ("")) = Except.ok ("Repository cloned successfully"))
    ∧ (∀ a, callTool (Request.add a) (ExecOutcome.ok ("") ("")) = Except.ok ("Files added to staging area"))
    ∧ (∀ a, callTool (Request.push a) (ExecOutcome.ok ("") ("")) = Except.ok ("Push completed successfully"))
    ∧ (∀ a, callTool (Request.branch a) (ExecOutcome.ok ("") ("")) = Except.ok ("Branch operation completed"))
    ∧ (∀ a, callTool (Request.checkout a) (ExecOutcome.ok ("") (""))
        = Except.ok ("Switched to branch \x27" ++ jsStr a.branch ++ "\x27"))
    ∧ (∀ a, callTool (Request.diff a) (ExecOutcome.ok ("") ("")) = Except.ok ("No differences found"))
    ∧ (∀ a, callTool (Request.stash a) (ExecOutcome.ok ("") ("")) = Except.ok ("Stash operation completed"))
    ∧ (∀ a, callTool (Request.remote a) (ExecOutcome.ok ("") ("")) = Except.ok ("Remote operation completed"))
    ∧ (∀ a, callTool (Request.tag a) (ExecOutcome.ok ("") ("")) = Except.ok ("Tag operation completed"))
    ∧ (∀ a, callTool (Request.reset a) (ExecOutcome.ok ("") ("")) = Except.ok ("Reset completed"))
    ∧ (∀ a, callTool (Request.status a) (ExecOutcome.ok ("") ("")) = Except.ok (""))
    ∧ (∀ a, callTool (Request.commit a) (ExecOutcome.ok ("") ("")) = Except.ok (""))
    ∧ (∀ a, callTool (Request.pull a) (ExecOutcome.ok ("") ("")) = Except.ok (""))
    ∧ (∀ a, callTool (Request.merge a) (ExecOutcome.ok ("") ("")) = Except.ok (""))
    ∧ (∀ a, callTool (Request.log a) (ExecOutcome.ok ("") ("")) = Except.ok ("")) := by
  refine ⟨?_, fun a => rfl, fun a => rfl, fun a => rfl, fun a => rfl, fun a => rfl, fun a => rfl,
    fun a => rfl, fun a => rfl, fun a => rfl, fun a => rfl, fun a => rfl, fun a => rfl,
    fun a => rfl, fun a => rfl, fun a => rfl, fun a => rfl⟩
  intro r out e h
  cases r <;> simp [callTool, finishOutput, jsOrStr, h]

/-- Witness for the amended C4 at a concrete operation with non-empty
output. -/
theorem c4_empty_output_defaults_amended_witness :
    ("hello" : String) ≠ ""
    ∧ callTool (Request.commit {}) (ExecOutcome.ok ("hello") ("")) = Except.ok ("hello") := by
  refine ⟨by decide, ?_⟩
  exact c4_empty_output_defaults_amended.1 (Request.commit {}) ("hello") ("") (by decide)

/-- Claim C9: for add, with all and update absent or false, an empty
files array composes the same command as omitting files entirely,
namely `add .`. -/
theorem c9_add_empty_files_like_omitted (al up : Option Bool) (p : Option String)
    (h1 : truthyB al = false) (h2 : truthyB up = false) :
    addCommand ⟨some [], p, al, up⟩ = addCommand ⟨none, p, al, up⟩
    ∧ addCommand ⟨none, p, al, up⟩ = "add ." := by
  constructor <;> simp [addCommand, h1, h2]

/-- Witness for C9 with all explicitly false and update absent. -/
theorem c9_add_empty_files_like_omitted_witness :
    truthyB (some false) = false
    ∧ truthyB none = false
    ∧ (addCommand ⟨some [], none, some false, none⟩ = addCommand ⟨none, none, some false, none⟩
       ∧ addCommand ⟨none, none, some false, none⟩ = "add .") := by
  exact ⟨rfl, rfl, c9_add_empty_files_like_omitted (some false) none none rfl rfl⟩

/-- Claim C10: for stash with action pop, apply or drop, the positional
`stash@\x7bindex\x7d` is appended exactly when the index field is
present, including index 0. -/
theorem c10_stash_index_positional (act : String)
    (h : act = "pop" ∨ act = "apply" ∨ act = "drop")
    (idx : Option Nat) (message p : Option String) (iu : Option Bool) :
    stashCommand ⟨some act, message, p, idx, iu⟩
      = ("stash " ++ act)
        ++ (match idx with
            | some i => " stash@\x7b" ++ toString i ++ "\x7d"
            | none => "") := by
  rcases h with rfl | rfl | rfl <;> cases idx <;> rfl

/-- Witness for C10 at action pop with index 0. -/
theorem c10_stash_index_positional_witness :
    stashCommand ⟨some ("pop"), none, none, some 0, none⟩ = "stash pop stash@\x7b0\x7d" := by
  have h := c10_stash_index_positional ("pop") (Or.inl rfl) (some 0) none none none
  exact h.trans (by rfl)

lemma tok_pull_rn_origin : tokens ("pull --rebase --no-ff origin") = ["pull", "--rebase", "--no-ff", "origin"] := by decide

lemma tok_pull_r_origin : tokens ("pull --rebase origin") = ["pull", "--rebase", "origin"] := by decide

lemma tok_pull_n_origin : tokens ("pull --no-ff origin") = ["pull", "--no-ff", "origin"] := by decide

lemma tok_pull_origin : tokens ("pull origin") = ["pull", "origin"] := by decide

lemma tok_pull_rn : tokens ("pull --rebase --no-ff") = ["pull", "--rebase", "--no-ff"] := by decide

lemma tok_pull_r : tokens ("pull --rebase") = ["pull", "--rebase"] := by decide

lemma tok_pull_n : tokens ("pull --no-ff") = ["pull", "--no-ff"] := by decide

/-- Claim C7: for pull, the token sequence of the composed command is
the verb, then `--rebase` exactly when rebase is true, then `--no-ff`
exactly when ff is explicitly false, then the remote positional (origin
when the field is absent) and finally the branch positional exactly when
a branch is given, for any plain (non-empty, space-free) remote and
branch values. -/
theorem c7_pull_flag_structure (p re br : Option String) (rb ff : Option Bool)
    (hre : ∀ s, re = some s → plainTok s) (hbr : ∀ s, br = some s → plainTok s) :
    tokens (pullCommand ⟨p, re, br, rb, ff⟩)
      = ["pull"] ++ (if rb = some true then ["--rebase"] else [])
        ++ (if ff = some false then ["--no-ff"] else [])
        ++ [jsOr re ("origin")]
        ++ (match br with | some b => [b] | none => []) := by
  rcases re with _ | r
  · rcases br with _ | b
    · by_cases h1 : rb = some true <;> by_cases h2 : ff = some false <;>
        simp [pullCommand, truthyB_eq, truthyS, jsOr, jsStr, h1, h2,
          sp_rebase, sp_noff, strAppend_assoc, strAppend_empty, strEmpty_append,
          tokens_sep, tok_pull, tok_rebase, tok_noff, tok_origin,
          tok_pull_rn_origin, tok_pull_r_origin, tok_pull_n_origin, tok_pull_origin,
          tok_pull_rn, tok_pull_r, tok_pull_n]
    · have hb := hbr b rfl
      by_cases h1 : rb = some true <;> by_cases h2 : ff = some false <;>
        simp [pullCommand, truthyB_eq, truthyS, jsOr, jsStr, h1, h2, hb.1,
          sp_rebase, sp_noff, strAppend_assoc, strAppend_empty, strEmpty_append,
          tokens_sep, tokens_plain b hb, tok_pull, tok_rebase, tok_noff, tok_origin,
          tok_pull_rn_origin, tok_pull_r_origin, tok_pull_n_origin, tok_pull_origin,
          tok_pull_rn, tok_pull_r, tok_pull_n]
  · have hr := hre r rfl
    rcases br with _ | b
    · by_cases h1 : rb = some true <;> by_cases h2 : ff = some false <;>
        simp [pullCommand, truthyB_eq, truthyS, jsOr, jsStr, h1, h2, hr.1,
          sp_rebase, sp_noff, strAppend_assoc, strAppend_empty, strEmpty_append,
          tokens_sep, tokens_plain r hr, tok_pull, tok_rebase, tok_noff, tok_origin,
          tok_pull_rn_origin, tok_pull_r_origin, tok_pull_n_origin, tok_pull_origin,
          tok_pull_rn, tok_pull_r, tok_pull_n]
    · have hb := hbr b rfl
      by_cases h1 : rb = some true <;> by_cases h2 : ff = some false <;>
        simp [pullCommand, truthyB_eq, truthyS, jsOr, jsStr, h1, h2, hr.1, hb.1,
          sp_rebase, sp_noff, strAppend_assoc, strAppend_empty, strEmpty_append,
          tokens_sep, tokens_plain r hr, tokens_plain b hb,
          tok_pull, tok_rebase, tok_noff, tok_origin,
          tok_pull_rn_origin, tok_pull_r_origin, tok_pull_n_origin, tok_pull_origin,
          tok_pull_rn, tok_pull_r, tok_pull_n]

/-- Witness for C7 with remote upstream, branch main, rebase true and
ff explicitly false. -/
theorem c7_pull_flag_structure_witness :
    (∀ s, (some ("upstream") : Option String) = some s → plainTok s)
    ∧ tokens (pullCommand ⟨none, some ("upstream"), some ("main"), some true, some false⟩)
      = ["pull", "--rebase", "--no-ff", "upstream", "main"] := by
  have hre : ∀ s, (some ("upstream") : Option String) = some s → plainTok s := by
    intro s hs
    injection hs with h
    subst h
    exact ⟨by decide, by decide⟩
  have hbr : ∀ s, (some ("main") : Option String) = some s → plainTok s := by
    intro s hs
    injection hs with h
    subst h
    exact ⟨by decide, by decide⟩
  refine ⟨hre, ?_⟩
  have h := c7_pull_flag_structure none (some ("upstream")) (some ("main")) (some true) (some false) hre hbr
  simpa using h

/-- Counterexample to claim C8 as stated: the claim says every boolean
flag field merely inserts its flag token, all other tokens unchanged,
but for add the all field selects between alternative command shapes:
`add .` with the field false or absent becomes `add --all` with it true,
so the `.` positional disappears rather than staying unchanged. -/
theorem c8_add_all_counterexample :
    ¬ insertsFlag (fun b => addCommand ⟨none, none, b, none⟩) (" --all") := by
  intro hcontra
  obtain ⟨pre, suf, h1, h2, -⟩ := hcontra
  have h1' : ("add --all" : String) = pre ++ (" --all") ++ suf := h1
  have h2' : ("add ." : String) = pre ++ suf := h2
  have l1 := congrArg String.length h1'
  have l2 := congrArg String.length h2'
  rw [str_length_append, str_length_append] at l1
  rw [str_length_append] at l2
  have e1 : ("add --all" : String).length = 9 := rfl
  have e2 : (" --all" : String).length = 6 := rfl
  have e3 : ("add ." : String).length = 5 := rfl
  rw [e1, e2] at l1
  rw [e3] at l2
  omega

lemma flagIns_init_bare (a : InitArgs) :
    insertsFlag (fun b => initCommand { a with bare := b }) (" --bare") := by
  unfold insertsFlag
  refine ⟨"init" ++ (if truthyS a.initialBranch then " --initial-branch=" ++ quoteArg (jsStr a.initialBranch) else ""),
    (if truthyS a.path then " " ++ quoteArg (jsStr a.path) else ""), ?_, ?_, ?_⟩ <;>
    simp [initCommand, truthyB, strAppend_assoc, strAppend_empty, strEmpty_append]

lemma flagIns_clone_recursive (a : CloneArgs) :
    insertsFlag (fun b => cloneCommand { a with recursive := b }) (" --recursive") := by
  unfold insertsFlag
  refine ⟨"clone " ++ quoteArg (jsStr a.url)
      ++ (if truthyS a.path then " " ++ quoteArg (jsStr a.path) else "")
      ++ (if truthyS a.branch then " --branch " ++ quoteArg (jsStr a.branch) else "")
      ++ (if truthyN a.depth then " --depth " ++ toString (a.depth.getD 0) else ""),
    "", ?_, ?_, ?_⟩ <;>
    simp [cloneCommand, truthyB, strAppend_assoc, strAppend_empty, strEmpty_append]

lemma flagIns_status_short (a : StatusArgs) :
    insertsFlag (fun b => statusCommand { a with short := b }) (" --short") := by
  unfold insertsFlag
  refine ⟨"status",
    (if truthyB a.branch then " --branch" else "") ++ (if truthyB a.porcelain then " --porcelain" else ""),
    ?_, ?_, ?_⟩ <;>
    simp [statusCommand, truthyB, strAppend_assoc, strAppend_empty, strEmpty_append]

lemma flagIns_status_branch (a : StatusArgs) :
    insertsFlag (fun b => statusCommand { a with branch := b }) (" --branch") := by
  unfold insertsFlag
  refine ⟨"status" ++ (if truthyB a.short then " --short" else ""),
    (if truthyB a.porcelain then " --porcelain" else ""), ?_, ?_, ?_⟩ <;>
    simp [statusCommand, truthyB, strAppend_assoc, strAppend_empty, strEmpty_append]

lemma flagIns_status_porcelain (a : StatusArgs) :
    insertsFlag (fun b => statusCommand { a with porcelain := b }) (" --porcelain") := by
  unfold insertsFlag
  refine ⟨"status" ++ (if truthyB a.short then " --short" else "") ++ (if truthyB a.branch then " --branch" else ""),
    "", ?_, ?_, ?_⟩ <;>
    simp [statusCommand, truthyB, strAppend_assoc, strAppend_empty, strEmpty_append]

lemma flagIns_commit_all (a : CommitArgs) :
    insertsFlag (fun b => commitCommand { a with all := b }) (" --all") := by
  unfold insertsFlag
  refine ⟨"commit" ++ " -m " ++ quoteArg (jsStr a.message),
    (if truthyB a.amend then " --amend" else "")
      ++ (if truthyS a.author then " --author=" ++ quoteArg (jsStr a.author) else ""),
    ?_, ?_, ?_⟩ <;>
    simp [commitCommand, truthyB, strAppend_assoc, strAppend_empty, strEmpty_append]

lemma flagIns_commit_amend (a : CommitArgs) :
    insertsFlag (fun b => commitCommand { a with amend := b }) (" --amend") := by
  unfold insertsFlag
  refine ⟨"commit" ++ " -m " ++ quoteArg (jsStr a.message) ++ (if truthyB a.all then " --all" else ""),
    (if truthyS a.author then " --author=" ++ quoteArg (jsStr a.author) else ""), ?_, ?_, ?_⟩ <;>
    simp [commitCommand, truthyB, strAppend_assoc, strAppend_empty, strEmpty_append]

lemma flagIns_push_force (a : PushArgs) :
    insertsFlag (fun b => pushCommand { a with force := b }) (" --force") := by
  unfold insertsFlag
  refine ⟨"push",
    (if truthyB a.setUpstream then " --set-upstream" else "") ++ (if truthyB a.tags then " --tags" else "")
      ++ (" " ++ jsOr a.remote ("origin")) ++ (if truthyS a.branch then " " ++ jsStr a.branch else ""),
    ?_, ?_, ?_⟩ <;>
    simp [pushCommand, truthyB, strAppend_assoc, strAppend_empty, strEmpty_append]

lemma flagIns_push_setUpstream (a : PushArgs) :
    insertsFlag (fun b => pushCommand { a with setUpstream := b }) (" --set-upstream") := by
  unfold insertsFlag
  refine ⟨"push" ++ (if truthyB a.force then " --force" else ""),
    (if truthyB a.tags then " --tags" else "")
      ++ (" " ++ jsOr a.remote ("origin")) ++ (if truthyS a.branch then " " ++ jsStr a.branch else ""),
    ?_, ?_, ?_⟩ <;>
    simp [pushCommand, truthyB, strAppend_assoc, strAppend_empty, strEmpty_append]

lemma flagIns_push_tags (a : PushArgs) :
    insertsFlag (fun b => pushCommand { a with tags := b }) (" --tags") := by
  unfold insertsFlag
  refine ⟨"push" ++ (if truthyB a.force then " --force" else "") ++ (if truthyB a.setUpstream then " --set-upstream" else ""),
    (" " ++ jsOr a.remote ("origin")) ++ (if truthyS a.branch then " " ++ jsStr a.branch else ""),
    ?_, ?_, ?_⟩ <;>
    simp [pushCommand, truthyB, strAppend_assoc, strAppend_empty, strEmpty_append]

lemma flagIns_pull_rebase (a : PullArgs) :
    insertsFlag (fun b => pullCommand { a with rebase := b }) (" --rebase") := by
  unfold insertsFlag
  refine ⟨"pull",
    (if a.ff = some false then " --no-ff" else "")
      ++ (" " ++ jsOr a.remote ("origin")) ++ (if truthyS a.branch then " " ++ jsStr a.branch else ""),
    ?_, ?_, ?_⟩ <;>
    simp [pullCommand, truthyB, strAppend_assoc, strAppend_empty, strEmpty_append]

lemma flagIns_checkout_create (a : CheckoutArgs) :
    insertsFlag (fun b => checkoutCommand { a with create := b }) (" -b") := by
  unfold insertsFlag
  refine ⟨"checkout",
    (if truthyB a.force then " --force" else "") ++ (" " ++ quoteArg (jsStr a.branch)), ?_, ?_, ?_⟩ <;>
    simp [checkoutCommand, truthyB, strAppend_assoc, strAppend_empty, strEmpty_append]

lemma flagIns_checkout_force (a : CheckoutArgs) :
    insertsFlag (fun b => checkoutCommand { a with force := b }) (" --force") := by
  unfold insertsFlag
  refine ⟨"checkout" ++ (if truthyB a.create then " -b" else ""),
    (" " ++ quoteArg (jsStr a.branch)), ?_, ?_, ?_⟩ <;>
    simp [checkoutCommand, truthyB, strAppend_assoc, strAppend_empty, strEmpty_append]

lemma flagIns_merge_noFf (a : MergeArgs) :
    insertsFlag (fun b => mergeCommand { a with noFf := b }) (" --no-ff") := by
  unfold insertsFlag
  refine ⟨"merge " ++ quoteArg (jsStr a.branch)
      ++ (if truthyS a.message then " -m " ++ quoteArg (jsStr a.message) else ""),
    (if truthyB a.squash then " --squash" else ""), ?_, ?_, ?_⟩ <;>
    simp [mergeCommand, truthyB, strAppend_assoc, strAppend_empty, strEmpty_append]

lemma flagIns_merge_squash (a : MergeArgs) :
    insertsFlag (fun b => mergeCommand { a with squash := b }) (" --squash") := by
  unfold insertsFlag
  refine ⟨"merge " ++ quoteArg (jsStr a.branch)
      ++ (if truthyS a.message then " -m " ++ quoteArg (jsStr a.message) else "")
      ++ (if truthyB a.noFf then " --no-ff" else ""),
    "", ?_, ?_, ?_⟩ <;>
    simp [mergeCommand, truthyB, strAppend_assoc, strAppend_empty, strEmpty_append]

lemma flagIns_log_oneline (a : LogArgs) :
    insertsFlag (fun b => logCommand { a with oneline := b }) (" --oneline") := by
  unfold insertsFlag
  refine ⟨"log" ++ (if truthyN a.limit then " -" ++ toString (a.limit.getD 0) else ""),
    (if truthyB a.graph then " --graph" else "")
      ++ (if truthyS a.author then " --author=" ++ quoteArg (jsStr a.author) else "")
      ++ (if truthyS a.since then " --since=" ++ quoteArg (jsStr a.since) else "")
      ++ (if truthyS a.untilArg then " --until=" ++ quoteArg (jsStr a.untilArg) else ""),
    ?_, ?_, ?_⟩ <;>
    simp [logCommand, truthyB, strAppend_assoc, strAppend_empty, strEmpty_append]

lemma flagIns_log_graph (a : LogArgs) :
    insertsFlag (fun b => logCommand { a with graph := b }) (" --graph") := by
  unfold insertsFlag
  refine ⟨"log" ++ (if truthyN a.limit then " -" ++ toString (a.limit.getD 0) else "")
      ++ (if truthyB a.oneline then " --oneline" else ""),
    (if truthyS a.author then " --author=" ++ quoteArg (jsStr a.author) else "")
      ++ (if truthyS a.since then " --since=" ++ quoteArg (jsStr a.since) else "")
      ++ (if truthyS a.untilArg then " --until=" ++ quoteArg (jsStr a.untilArg) else ""),
    ?_, ?_, ?_⟩ <;>
    simp [logCommand, truthyB, strAppend_assoc, strAppend_empty, strEmpty_append]

lemma flagIns_diff_cached (a : DiffArgs) :
    insertsFlag (fun b => diffCommand { a with cached := b }) (" --cached") := by
  unfold insertsFlag
  refine ⟨"diff",
    (if truthyB a.stat then " --stat" else "") ++ (if truthyB a.nameOnly then " --name-only" else "")
      ++ (if truthyS a.commit then " " ++ jsStr a.commit else ""),
    ?_, ?_, ?_⟩ <;>
    simp [diffCommand, truthyB, strAppend_assoc, strAppend_empty, strEmpty_append]

lemma flagIns_diff_stat (a : DiffArgs) :
    insertsFlag (fun b => diffCommand { a with stat := b }) (" --stat") := by
  unfold insertsFlag
  refine ⟨"diff" ++ (if truthyB a.cached then " --cached" else ""),
    (if truthyB a.nameOnly then " --name-only" else "")
      ++ (if truthyS a.commit then " " ++ jsStr a.commit else ""),
    ?_, ?_, ?_⟩ <;>
    simp [diffCommand, truthyB, strAppend_assoc, strAppend_empty, strEmpty_append]

lemma flagIns_diff_nameOnly (a : DiffArgs) :
    insertsFlag (fun b => diffCommand { a with nameOnly := b }) (" --name-only") := by
  unfold insertsFlag
  refine ⟨"diff" ++ (if truthyB a.cached then " --cached" else "") ++ (if truthyB a.stat then " --stat" else ""),
    (if truthyS a.commit then " " ++ jsStr a.commit else ""), ?_, ?_, ?_⟩ <;>
    simp [diffCommand, truthyB, strAppend_assoc, strAppend_empty, strEmpty_append]

lemma flagIns_stash_includeUntracked (message p : Option String) (idx : Option Nat) :
    insertsFlag (fun b => stashCommand ⟨some ("save"), message, p, idx, b⟩) (" --include-untracked") := by
  unfold insertsFlag
  refine ⟨"stash" ++ " push" ++ (if truthyS message then " -m " ++ quoteArg (jsStr message) else ""),
    "", ?_, ?_, ?_⟩ <;>
    (simp [stashCommand, truthyB, strAppend_assoc, strAppend_empty, strEmpty_append] <;> rfl)

lemma flagIns_branch_all (name newName p : Option String) (rm : Option Bool) :
    insertsFlag (fun b => branchCommand ⟨some ("list"), name, newName, p, b, rm⟩) (" --all") := by
  unfold insertsFlag
  refine ⟨"branch", (if truthyB rm then " --remote" else ""), ?_, ?_, ?_⟩ <;>
    (simp [branchCommand, truthyB, strAppend_assoc, strAppend_empty, strEmpty_append] <;> rfl)

lemma flagIns_branch_remote (name newName p : Option String) (al : Option Bool) :
    insertsFlag (fun b => branchCommand ⟨some ("list"), name, newName, p, al, b⟩) (" --remote") := by
  unfold insertsFlag
  refine ⟨"branch" ++ (if truthyB al then " --all" else ""), "", ?_, ?_, ?_⟩ <;>
    simp [branchCommand, truthyB, strAppend_assoc, strAppend_empty, strEmpty_append]

lemma flagIns_remote_verbose (name url p : Option String) :
    insertsFlag (fun b => remoteCommand ⟨some ("list"), name, url, p, b⟩) (" -v") := by
  unfold insertsFlag
  refine ⟨"remote", "", ?_, ?_, ?_⟩ <;>
    simp [remoteCommand, truthyB, strAppend_assoc, strAppend_empty, strEmpty_append]

lemma flagIns_tag_force (name message p : Option String) (ann : Option Bool) :
    insertsFlag (fun b => tagCommand ⟨some ("create"), name, message, p, ann, b⟩) (" -f") := by
  unfold insertsFlag
  refine ⟨"tag" ++ (if truthyB ann && truthyS message
      then " -a " ++ quoteArg (jsStr name) ++ " -m " ++ quoteArg (jsStr message)
      else " " ++ quoteArg (jsStr name)),
    "", ?_, ?_, ?_⟩ <;>
    simp [tagCommand, truthyB, strAppend_assoc, strAppend_empty, strEmpty_append]

/-- Claim C8, amended: for every boolean flag field that unconditionally
appends its token in the operation form where it is consulted — all
boolean flags except add's all and update and tag's annotated, which
select between alternative command shapes, and pull's ff, whose token
appears on explicit false — setting the field true inserts exactly that
flag's token into the command composed with the field false or absent,
leaving everything else unchanged; the mode-scoped flags (stash's
includeUntracked in save mode, branch's all and remote in list mode,
remote's verbose in list mode, tag's force in create mode) satisfy this
in their respective modes. -/
theorem c8_flag_insertion_amended :
    (∀ a : InitArgs, insertsFlag (fun b => initCommand { a with bare := b }) (" --bare"))
    ∧ (∀ a : CloneArgs, insertsFlag (fun b => cloneCommand { a with recursive := b }) (" --recursive"))
    ∧ (∀ a : StatusArgs, insertsFlag (fun b => statusCommand { a with short := b }) (" --short"))
    ∧ (∀ a : StatusArgs, insertsFlag (fun b => statusCommand { a with branch := b }) (" --branch"))
    ∧ (∀ a : StatusArgs, insertsFlag (fun b => statusCommand { a with porcelain := b }) (" --porcelain"))
    ∧ (∀ a : CommitArgs, insertsFlag (fun b => commitCommand { a with all := b }) (" --all"))
    ∧ (∀ a : CommitArgs, insertsFlag (fun b => commitCommand { a with amend := b }) (" --amend"))
    ∧ (∀ a : PushArgs, insertsFlag (fun b => pushCommand { a with force := b }) (" --force"))
    ∧ (∀ a : PushArgs, insertsFlag (fun b => pushCommand { a with setUpstream := b }) (" --set-upstream"))
    ∧ (∀ a : PushArgs, insertsFlag (fun b => pushCommand { a with tags := b }) (" --tags"))
    ∧ (∀ a : PullArgs, insertsFlag (fun b => pullCommand { a with rebase := b }) (" --rebase"))
    ∧ (∀ a : CheckoutArgs, insertsFlag (fun b => checkoutCommand { a with create := b }) (" -b"))
    ∧ (∀ a : CheckoutArgs, insertsFlag (fun b => checkoutCommand { a with force := b }) (" --force"))
    ∧ (∀ a : MergeArgs, insertsFlag (fun b => mergeCommand { a with noFf := b }) (" --no-ff"))
    ∧ (∀ a : MergeArgs, insertsFlag (fun b => mergeCommand { a with squash := b }) (" --squash"))
    ∧ (∀ a : LogArgs, insertsFlag (fun b => logCommand { a with oneline := b }) (" --oneline"))
    ∧ (∀ a : LogArgs, insertsFlag (fun b => logCommand { a with graph := b }) (" --graph"))
    ∧ (∀ a : DiffArgs, insertsFlag (fun b => diffCommand { a with cached := b }) (" --cached"))
    ∧ (∀ a : DiffArgs, insertsFlag (fun b => diffCommand { a with stat := b }) (" --stat"))
    ∧ (∀ a : DiffArgs, insertsFlag (fun b => diffCommand { a with nameOnly := b }) (" --name-only"))
    ∧ (∀ (message p : Option String) (idx : Option Nat),
        insertsFlag (fun b => stashCommand ⟨some ("save"), message, p, idx, b⟩) (" --include-untracked"))
    ∧ (∀ (name newName p : Option String) (rm : Option Bool),
        insertsFlag (fun b => branchCommand ⟨some ("list"), name, newName, p, b, rm⟩) (" --all"))
    ∧ (∀ (name newName p : Option String) (al : Option Bool),
        insertsFlag (fun b => branchCommand ⟨some ("list"), name, newName, p, al, b⟩) (" --remote"))
    ∧ (∀ (name url p : Option String),
        insertsFlag (fun b => remoteCommand ⟨some ("list"), name, url, p, b⟩) (" -v"))
    ∧ (∀ (name message p : Option String) (ann : Option Bool),
        insertsFlag (fun b => tagCommand ⟨some ("create"), name, message, p, ann, b⟩) (" -f")) := by
  exact ⟨flagIns_init_bare, flagIns_clone_recursive, flagIns_status_short, flagIns_status_branch,
    flagIns_status_porcelain, flagIns_commit_all, flagIns_commit_amend, flagIns_push_force,
    flagIns_push_setUpstream, flagIns_push_tags, flagIns_pull_rebase, flagIns_checkout_create,
    flagIns_checkout_force, flagIns_merge_noFf, flagIns_merge_squash, flagIns_log_oneline,
    flagIns_log_graph, flagIns_diff_cached, flagIns_diff_stat, flagIns_diff_nameOnly,
    flagIns_stash_includeUntracked, flagIns_branch_all, flagIns_branch_remote,
    flagIns_remote_verbose, flagIns_tag_force⟩

/-- Witness for the amended C8: the push force flag at the empty
argument bundle. -/
theorem c8_flag_insertion_amended_witness :
    insertsFlag (fun b => pushCommand { force := b }) (" --force") := by
  exact c8_flag_insertion_amended.2.2.2.2.2.2.2.1 {}
